import Mathlib

/- Shallow embedding of the JM-Gift tree morph scene.
   Sources: src/src/tree/store.ts (zustand store, TreeSystem handlers,
   sampling functions).  JS numbers are modelled as real numbers; the
   Math.random stream is modelled as an explicit draw stream passed in. -/

/- THREE.MathUtils.clamp(value, min, max) = max(min, min(max, value)). -/
def clamp (v lo hi : ℝ) : ℝ := max lo (min hi v)

/- THREE.MathUtils.lerp(x, y, t) = x + (y - x) * t. -/
def lerp (x y t : ℝ) : ℝ := x + (y - x) * t

/- store.ts lines 3-9: the two interaction modes. -/
inductive TreeMorphState where
  | SCATTERED
  | TREE_SHAPE
  deriving DecidableEq

/- store.ts lines 11-25: the zustand store fields that the claims are about. -/
structure TreeStore where
  state : TreeMorphState
  progress : ℝ
  selectedPolaroid : Option ℕ

/- store.ts lines 24-25, 40: initial store {state: TREE_SHAPE, progress: 1,
   selectedPolaroid: null}. -/
def initialStore : TreeStore :=
  { state := TreeMorphState.TREE_SHAPE, progress := 1, selectedPolaroid := none }

/- store.ts lines 26-37: toggle flips the mode and snaps progress. -/
def toggle (prev : TreeStore) : TreeStore :=
  let nextState :=
    if prev.state = TreeMorphState.SCATTERED then TreeMorphState.TREE_SHAPE
    else TreeMorphState.SCATTERED
  { prev with
    state := nextState,
    progress := if nextState = TreeMorphState.TREE_SHAPE then 1 else 0 }

/- store.ts line 38: setProgress stores its argument as given. -/
def setProgress (p : ℝ) (s : TreeStore) : TreeStore := { s with progress := p }

/- store.ts line 39. -/
def setState (m : TreeMorphState) (s : TreeStore) : TreeStore := { s with state := m }

/- store.ts line 41. -/
def setSelectedPolaroid (i : Option ℕ) (s : TreeStore) : TreeStore :=
  { s with selectedPolaroid := i }

/- store.ts line 42. -/
def selectPolaroid (i : ℕ) (s : TreeStore) : TreeStore :=
  { s with selectedPolaroid := some i }

/- store.ts line 43. -/
def clearPolaroid (s : TreeStore) : TreeStore := { s with selectedPolaroid := none }

/- sampling.ts lines 680-682: easeInOutCubic. -/
noncomputable def easeInOutCubic (t : ℝ) : ℝ :=
  if t < 0.5 then 4 * t * t * t else 1 - (-2 * t + 2) ^ 3 / 2

/- TreeSystem.tsx line 165 (MorphInstanced.useFrame): the per-frame driver
   interpolation factor is the easing applied to the raw stored progress. -/
noncomputable def morphT (s : TreeStore) : ℝ := easeInOutCubic s.progress

/- TreeSystem.tsx lines 323-328: panel onPointerDown selects only in
   SCATTERED mode. -/
def panelPointerDown (i : ℕ) (s : TreeStore) : TreeStore :=
  if s.state = TreeMorphState.SCATTERED then selectPolaroid i s else s

/- TreeSystem.tsx lines 575-582: the background group onPointerDown clears
   the selection only when state is SCATTERED and a panel is selected. -/
def backgroundPointerDown (s : TreeStore) : TreeStore :=
  if s.state = TreeMorphState.SCATTERED ∧ s.selectedPolaroid ≠ none then
    clearPolaroid s
  else s

/- TreeSystem.tsx lines 532-546: the wheel handler clamps before storing and
   reclassifies the mode at the 0.5 threshold. -/
noncomputable def onWheel (deltaY : ℝ) (s : TreeStore) : TreeStore :=
  let next := clamp (s.progress - deltaY * 0.0012) 0 1
  setState (if next > 0.5 then TreeMorphState.TREE_SHAPE else TreeMorphState.SCATTERED)
    (setProgress next s)

/- Helper: the cube map is monotone on all reals. -/
theorem cube_mono {x y : ℝ} (h : x ≤ y) : x ^ 3 ≤ y ^ 3 := by
  nlinarith [sq_nonneg (x + y), sq_nonneg (x - y), sq_nonneg x, sq_nonneg y]

/- Helper: easeInOutCubic is monotone on all reals. -/
theorem easeInOutCubic_mono {a b : ℝ} (h : a ≤ b) :
    easeInOutCubic a ≤ easeInOutCubic b := by
  unfold easeInOutCubic
  split_ifs with h1 h2 h2
  · nlinarith [cube_mono h]
  · have ha : a ≤ 1 / 2 := by norm_num at h1; linarith
    have hb : 1 / 2 ≤ b := by norm_num at h2; linarith
    have h3 : a ^ 3 ≤ (1 / 2 : ℝ) ^ 3 := cube_mono ha
    have h4 : (-2 * b + 2) ^ 3 ≤ 1 ^ 3 := cube_mono (by linarith)
    norm_num at h3 h4
    nlinarith
  · exfalso; linarith
  · have h5 : (-2 * b + 2 : ℝ) ≤ -2 * a + 2 := by linarith
    have h6 : (-2 * b + 2) ^ 3 ≤ (-2 * a + 2) ^ 3 := cube_mono h5
    linarith

/-- C5: toggle flips the mode between SCATTERED and TREE_SHAPE and snaps
progress to 1 when the new mode is TREE_SHAPE and to 0 when it is SCATTERED;
from the initial store, one toggle gives {SCATTERED, 0} and a second toggle
restores {TREE_SHAPE, 1} (round-trip law). -/
theorem toggle_round_trip :
    (∀ s : TreeStore,
      (toggle s).state =
        (if s.state = TreeMorphState.SCATTERED then TreeMorphState.TREE_SHAPE
         else TreeMorphState.SCATTERED) ∧
      (toggle s).progress =
        (if (toggle s).state = TreeMorphState.TREE_SHAPE then 1 else 0)) ∧
    toggle initialStore =
      { state := TreeMorphState.SCATTERED, progress := 0, selectedPolaroid := none } ∧
    toggle (toggle initialStore) = initialStore := by
  refine ⟨fun s => ?_, rfl, rfl⟩
  cases h : s.state <;> simp [toggle, h]

/-- C6: a panel pointer-down selects the clicked panel when the mode is
SCATTERED (selectedPolaroid becomes some i) and leaves the whole store
unchanged when the mode is TREE_SHAPE, so a selection is never created in
TREE_SHAPE mode. -/
theorem panelPointerDown_spec :
    ∀ (s : TreeStore) (i : ℕ),
      (s.state = TreeMorphState.SCATTERED →
        (panelPointerDown i s).selectedPolaroid = some i) ∧
      (s.state = TreeMorphState.TREE_SHAPE → panelPointerDown i s = s) := by
  intro s i
  constructor
  · intro h
    simp [panelPointerDown, h, selectPolaroid]
  · intro h
    simp [panelPointerDown, h]

theorem panelPointerDown_spec_check :
    (panelPointerDown 3
      { state := TreeMorphState.SCATTERED, progress := 0, selectedPolaroid := none
        }).selectedPolaroid = some 3 ∧
    panelPointerDown 3 initialStore = initialStore :=
  ⟨(panelPointerDown_spec _ 3).1 rfl, (panelPointerDown_spec _ 3).2 rfl⟩

/-- C3 counterexample: in mode TREE_SHAPE with panel 3 selected, a pointer-down
on the empty background leaves the selection as some 3 instead of clearing it,
refuting the claim that the background click clears the selection regardless
of mode. -/
theorem backgroundPointerDown_tree_counterexample :
    (backgroundPointerDown
      { state := TreeMorphState.TREE_SHAPE, progress := 1, selectedPolaroid := some 3
        }).selectedPolaroid = some 3 := by
  rfl

/-- C3 amended: a pointer-down on the empty scene background clears the
selection to none whenever the mode is SCATTERED; when the mode is TREE_SHAPE
the handler leaves the store unchanged (the selection is not cleared). -/
theorem backgroundPointerDown_spec :
    ∀ s : TreeStore,
      (s.state = TreeMorphState.SCATTERED →
        (backgroundPointerDown s).selectedPolaroid = none) ∧
      (s.state = TreeMorphState.TREE_SHAPE → backgroundPointerDown s = s) := by
  intro s
  constructor
  · intro h
    cases hsel : s.selectedPolaroid with
    | none => simp [backgroundPointerDown, h, hsel, clearPolaroid]
    | some i => simp [backgroundPointerDown, h, hsel, clearPolaroid]
  · intro h
    simp [backgroundPointerDown, h]

theorem backgroundPointerDown_spec_check :
    (backgroundPointerDown
      { state := TreeMorphState.SCATTERED, progress := 0, selectedPolaroid := some 1
        }).selectedPolaroid = none ∧
    backgroundPointerDown initialStore = initialStore :=
  ⟨(backgroundPointerDown_spec _).1 rfl, (backgroundPointerDown_spec _).2 rfl⟩

/-- C2 counterexample: setProgress 2 stores progress = 2, which is outside
[0,1], and the per-frame driver then applies the easing to that unclamped
value, giving the factor 5 — so neither the store mutation nor the driver
clamps progress to [0,1]. -/
theorem setProgress_unclamped_counterexample :
    (setProgress 2 initialStore).progress = 2 ∧
    ¬ (setProgress 2 initialStore).progress ≤ 1 ∧
    morphT (setProgress 2 initialStore) = 5 := by
  refine ⟨rfl, ?_, ?_⟩
  · show ¬ (2 : ℝ) ≤ 1
    norm_num
  · show easeInOutCubic 2 = 5
    norm_num [easeInOutCubic]

/-- C2 amended: toggle and the wheel handler do keep the stored progress
inside [0,1], but setProgress stores its argument unchanged with no clamping,
and the per-frame driver applies the easing directly to the raw stored
progress without any defensive clamp. -/
theorem progress_clamping_amended :
    (∀ (s : TreeStore) (p : ℝ), (setProgress p s).progress = p) ∧
    (∀ s : TreeStore, 0 ≤ (toggle s).progress ∧ (toggle s).progress ≤ 1) ∧
    (∀ (s : TreeStore) (d : ℝ),
      0 ≤ (onWheel d s).progress ∧ (onWheel d s).progress ≤ 1) ∧
    (∀ s : TreeStore, morphT s = easeInOutCubic s.progress) := by
  refine ⟨fun s p => rfl, fun s => ?_, fun s d => ?_, fun s => rfl⟩
  · cases h : s.state <;> simp [toggle, h]
  · constructor
    · show (0 : ℝ) ≤ clamp (s.progress - d * 0.0012) 0 1
      exact le_max_left 0 _
    · show clamp (s.progress - d * 0.0012) 0 1 ≤ 1
      unfold clamp
      exact max_le (by norm_num) (min_le_left 1 _)

/-- C4: on [0,1] the easing stays inside [0,1], fixes 0, 1/2 and 1, and is
monotonically non-decreasing; it is the symmetric cubic 4 t cubed below 1/2
and its mirror above. -/
theorem easeInOutCubic_unit_spec :
    (∀ a b : ℝ, 0 ≤ a → a ≤ b → b ≤ 1 →
      0 ≤ easeInOutCubic a ∧ easeInOutCubic b ≤ 1 ∧
        easeInOutCubic a ≤ easeInOutCubic b) ∧
    easeInOutCubic 0 = 0 ∧ easeInOutCubic 1 = 1 ∧
    easeInOutCubic (1 / 2) = 1 / 2 := by
  refine ⟨fun a b ha hab hb => ⟨?_, ?_, easeInOutCubic_mono hab⟩, ?_, ?_, ?_⟩
  · unfold easeInOutCubic
    split_ifs with h
    · positivity
    · have h4 : (-2 * a + 2) ^ 3 ≤ 1 ^ 3 := cube_mono (by linarith [le_of_not_lt h])
      norm_num at h4
      nlinarith
  · unfold easeInOutCubic
    split_ifs with h
    · have hb2 : b ≤ 1 / 2 := by norm_num at h; linarith
      have h3 : b ^ 3 ≤ (1 / 2 : ℝ) ^ 3 := cube_mono hb2
      norm_num at h3
      nlinarith
    · have h5 : (0 : ℝ) ≤ -2 * b + 2 := by linarith
      have h6 : (0 : ℝ) ≤ (-2 * b + 2) ^ 3 := by positivity
      nlinarith
  · norm_num [easeInOutCubic]
  · norm_num [easeInOutCubic]
  · norm_num [easeInOutCubic]

theorem easeInOutCubic_unit_spec_check :
    0 ≤ easeInOutCubic (1 / 4) ∧ easeInOutCubic (3 / 4) ≤ 1 ∧
      easeInOutCubic (1 / 4) ≤ easeInOutCubic (3 / 4) :=
  easeInOutCubic_unit_spec.1 (1 / 4) (3 / 4) (by norm_num) (by norm_num) (by norm_num)

/-- C10: the easing is a total monotone function on all reals that performs
no clamping: above 1 it exceeds 1 (easeInOutCubic 2 = 5) and below 0 it is
negative; setProgress stores its argument unclamped and the driver factor is
the easing of the raw stored value, and a lerp factor above 1 overshoots the
upper endpoint. -/
theorem easeInOutCubic_unclamped_spec :
    (∀ a b : ℝ, a ≤ b → easeInOutCubic a ≤ easeInOutCubic b) ∧
    (∀ t : ℝ, 1 < t → 1 < easeInOutCubic t) ∧
    easeInOutCubic 2 = 5 ∧
    (∀ t : ℝ, t < 0 → easeInOutCubic t < 0) ∧
    (∀ (s : TreeStore) (p : ℝ),
      (setProgress p s).progress = p ∧
      morphT (setProgress p s) = easeInOutCubic p) ∧
    (∀ a b t : ℝ, a < b → 1 < t → b < lerp a b t) := by
  refine ⟨fun a b h => easeInOutCubic_mono h, fun t ht => ?_, ?_, fun t ht => ?_,
    fun s p => ⟨rfl, rfl⟩, fun a b t hab ht => ?_⟩
  · unfold easeInOutCubic
    rw [if_neg (by linarith : ¬ t < 0.5)]
    have hneg : (-2 * t + 2 : ℝ) < 0 := by linarith
    have h2 : (-2 * t + 2 : ℝ) ^ 3 < 0 := Odd.pow_neg (by decide) hneg
    linarith
  · norm_num [easeInOutCubic]
  · unfold easeInOutCubic
    rw [if_pos (by norm_num; linarith : t < 0.5)]
    have h3 : t ^ 3 < 0 := Odd.pow_neg (by decide) ht
    nlinarith
  · unfold lerp
    nlinarith

theorem easeInOutCubic_unclamped_spec_check :
    easeInOutCubic 1 ≤ easeInOutCubic 2 ∧ 1 < easeInOutCubic 2 ∧
    easeInOutCubic (-1) < 0 ∧
    morphT (setProgress 2 initialStore) = easeInOutCubic 2 ∧
    (3 : ℝ) < lerp 0 3 2 :=
  ⟨easeInOutCubic_unclamped_spec.1 1 2 (by norm_num),
   easeInOutCubic_unclamped_spec.2.1 2 (by norm_num),
   easeInOutCubic_unclamped_spec.2.2.2.1 (-1) (by norm_num),
   (easeInOutCubic_unclamped_spec.2.2.2.2.1 initialStore 2).2,
   easeInOutCubic_unclamped_spec.2.2.2.2.2 0 3 2 (by norm_num) (by norm_num)⟩

/- ===== Geometry model (three.js Vector3 / Quaternion, sampling.ts) ===== -/

structure Vec3 where
  x : ℝ
  y : ℝ
  z : ℝ

/- THREE.Vector3.lengthSq. -/
def Vec3.lengthSq (v : Vec3) : ℝ := v.x * v.x + v.y * v.y + v.z * v.z

/- THREE.Vector3.length. -/
noncomputable def Vec3.length (v : Vec3) : ℝ := Real.sqrt v.lengthSq

/- THREE.Vector3.cross. -/
def Vec3.cross (a b : Vec3) : Vec3 :=
  { x := a.y * b.z - a.z * b.y, y := a.z * b.x - a.x * b.z, z := a.x * b.y - a.y * b.x }

/- THREE.Vector3.normalize: divideScalar(length or 1 when length is 0). -/
noncomputable def Vec3.normalize (v : Vec3) : Vec3 :=
  let l := if v.length = 0 then 1 else v.length
  { x := v.x / l, y := v.y / l, z := v.z / l }

structure Quat where
  x : ℝ
  y : ℝ
  z : ℝ
  w : ℝ

/- THREE.Quaternion.setFromEuler for the default XYZ order. -/
noncomputable def quatFromEulerXYZ (ex ey ez : ℝ) : Quat :=
  let c1 := Real.cos (ex / 2)
  let c2 := Real.cos (ey / 2)
  let c3 := Real.cos (ez / 2)
  let s1 := Real.sin (ex / 2)
  let s2 := Real.sin (ey / 2)
  let s3 := Real.sin (ez / 2)
  { x := s1 * c2 * c3 + c1 * s2 * s3,
    y := c1 * s2 * c3 - s1 * c2 * s3,
    z := c1 * c2 * s3 + s1 * s2 * c3,
    w := c1 * c2 * c3 - s1 * s2 * s3 }

/- THREE.Quaternion.setFromRotationMatrix on a rotation matrix whose columns
   are the basis vectors bx, b2, bz (as produced by Matrix4.makeBasis or the
   rotation part of Matrix4.lookAt). -/
noncomputable def quatFromBasis (bx b2 bz : Vec3) : Quat :=
  let m11 := bx.x
  let m21 := bx.y
  let m31 := bx.z
  let m12 := b2.x
  let m22 := b2.y
  let m32 := b2.z
  let m13 := bz.x
  let m23 := bz.y
  let m33 := bz.z
  let trace := m11 + m22 + m33
  if 0 < trace then
    let s := 0.5 / Real.sqrt (trace + 1)
    { x := (m32 - m23) * s, y := (m13 - m31) * s, z := (m21 - m12) * s,
      w := 0.25 / s }
  else if m22 < m11 ∧ m33 < m11 then
    let s := 2 * Real.sqrt (1 + m11 - m22 - m33)
    { x := 0.25 * s, y := (m12 + m21) / s, z := (m13 + m31) / s,
      w := (m32 - m23) / s }
  else if m33 < m22 then
    let s := 2 * Real.sqrt (1 + m22 - m11 - m33)
    { x := (m12 + m21) / s, y := 0.25 * s, z := (m23 + m32) / s,
      w := (m13 - m31) / s }
  else
    let s := 2 * Real.sqrt (1 + m33 - m11 - m22)
    { x := (m13 + m31) / s, y := (m23 + m32) / s, z := 0.25 * s,
      w := (m21 - m12) / s }

/- THREE.Matrix4.lookAt(eye, target, up): rotation basis (columns x, y, z),
   with the degenerate fallbacks of the three.js source. -/
noncomputable def lookAtBasis (eye target up : Vec3) : Vec3 × Vec3 × Vec3 :=
  let z0 : Vec3 := { x := eye.x - target.x, y := eye.y - target.y, z := eye.z - target.z }
  let z1 := if z0.lengthSq = 0 then { z0 with z := 1 } else z0
  let z2 := z1.normalize
  let x0 := Vec3.cross up z2
  let zx :=
    if x0.lengthSq = 0 then
      let z3 := if |up.z| = 1 then { z2 with x := z2.x + 0.0001 }
                else { z2 with z := z2.z + 0.0001 }
      let z4 := z3.normalize
      (z4, Vec3.cross up z4)
    else (z2, x0)
  let xn := zx.2.normalize
  let yf := Vec3.cross zx.1 xn
  (xn, yf, zx.1)

/- sampling.ts types and cone constants. -/
structure ConeParams where
  height : ℝ
  radiusBase : ℝ
  radiusTop : ℝ
  yBase : ℝ

structure MorphPoint where
  scatterPosition : Vec3
  treePosition : Vec3
  scatterQuaternion : Quat
  treeQuaternion : Quat
  scatterScale : Vec3
  treeScale : Vec3
  seed : ℕ

/- TreeSystem.tsx lines 356-359: the scene cone. -/
def treeSystemCone : ConeParams :=
  { height := 10.5, radiusBase := 4.6, radiusTop := 0.25, yBase := -4.8 }

/- sampling.ts lines 685-699: uniform point in a sphere, from three uniform
   draws u v w in [0,1). -/
noncomputable def randomPointInSphere (radius u v w : ℝ) : Vec3 :=
  let theta := 2 * Real.pi * u
  let phi := Real.arccos (2 * v - 1)
  let r := radius * w ^ ((1 : ℝ) / 3)
  let sinPhi := Real.sin phi
  { x := r * sinPhi * Real.cos theta, y := r * Real.cos phi, z := r * sinPhi * Real.sin theta }

/- sampling.ts lines 702-705: cone radius at height y. -/
noncomputable def coneRadiusAtY (y : ℝ) (p : ConeParams) : ℝ :=
  lerp p.radiusBase p.radiusTop (clamp ((y - p.yBase) / p.height) 0 1)

/- sampling.ts line 715: the height fraction of the biased cone sampler,
   t = raw ^ (1 / heightBias). -/
noncomputable def heightFraction (heightBias raw : ℝ) : ℝ :=
  raw ^ ((1 : ℝ) / heightBias)

/- sampling.ts lines 708-723: biased point in the cone, from three uniform
   draws (raw for the height, r2 for the radius, r3 for the azimuth). -/
noncomputable def randomPointInConeBiased (p : ConeParams) (raw r2 r3 : ℝ)
    (surfaceBias heightBias : ℝ) : Vec3 :=
  let t := heightFraction heightBias raw
  let y := p.yBase + t * p.height
  let rMax := coneRadiusAtY y p
  let r := rMax * r2 ^ surfaceBias
  let ang := r3 * (2 * Real.pi)
  { x := r * Real.cos ang, y := y, z := r * Real.sin ang }

/- sampling.ts lines 725-732: random orientation from three draws. -/
noncomputable def randomQuaternion (a b c : ℝ) : Quat :=
  quatFromEulerXYZ ((a - 0.5) * Real.pi) ((b - 0.5) * Real.pi) ((c - 0.5) * Real.pi)

/- sampling.ts lines 736-738: the guarded outward vector, with the fixed
   fallback (1, 0, 0) when the horizontal projection is degenerate. -/
noncomputable def outwardGuarded (pos : Vec3) : Vec3 :=
  if (Vec3.mk pos.x 0 pos.z).lengthSq < 1e-6 then { x := 1, y := 0, z := 0 }
  else { x := pos.x, y := 0, z := pos.z }

/- sampling.ts lines 735-744: outward orientation from a position. -/
noncomputable def outwardQuaternionFromPosition (pos : Vec3) : Quat :=
  let outward := (outwardGuarded pos).normalize
  let origin : Vec3 := { x := 0, y := pos.y, z := 0 }
  let target : Vec3 := { x := outward.x, y := pos.y, z := outward.z }
  let basis := lookAtBasis origin target { x := 0, y := 1, z := 0 }
  quatFromBasis basis.1 basis.2.1 basis.2.2

/- TreeSystem.tsx lines 297-298 (PolaroidField.useFrame): the right vector of
   the upright basis, with the fixed fallback (1, 0, 0) when the cross product
   outward x worldUp is (near-)zero-length; the driver then normalizes it. -/
noncomputable def panelRightGuarded (outward : Vec3) : Vec3 :=
  if (Vec3.cross outward { x := 0, y := 1, z := 0 }).lengthSq < 1e-8 then
    { x := 1, y := 0, z := 0 }
  else Vec3.cross outward { x := 0, y := 1, z := 0 }

/- sampling.ts lines 747-796: options of buildMorphPoints. -/
structure MorphOpts where
  scatterRadius : ℝ
  cone : ConeParams
  baseScaleMin : ℝ
  baseScaleMax : ℝ
  surfaceBias : ℝ
  heightBias : ℝ
  extraTreeRadialOffset : ℝ

/- One iteration of the buildMorphPoints loop; rng is the Math.random stream,
   consumed in call order (10 draws per element). -/
noncomputable def morphPointAt (opts : MorphOpts) (rng : ℕ → ℝ) (i : ℕ) : MorphPoint :=
  let scatterPosition :=
    randomPointInSphere opts.scatterRadius (rng (10 * i)) (rng (10 * i + 1)) (rng (10 * i + 2))
  let treePos0 :=
    randomPointInConeBiased opts.cone (rng (10 * i + 3)) (rng (10 * i + 4)) (rng (10 * i + 5))
      opts.surfaceBias opts.heightBias
  let treePosition :=
    if opts.extraTreeRadialOffset ≠ 0 then
      let radial : Vec3 := { x := treePos0.x, y := 0, z := treePos0.z }
      if 1e-6 < radial.lengthSq then
        let rn := radial.normalize
        { x := treePos0.x + rn.x * opts.extraTreeRadialOffset,
          y := treePos0.y + rn.y * opts.extraTreeRadialOffset,
          z := treePos0.z + rn.z * opts.extraTreeRadialOffset }
      else treePos0
    else treePos0
  let s := lerp opts.baseScaleMin opts.baseScaleMax (rng (10 * i + 6))
  let scale : Vec3 := { x := 1 * s, y := 1 * s, z := 1 * s }
  { scatterPosition := scatterPosition,
    treePosition := treePosition,
    scatterQuaternion := randomQuaternion (rng (10 * i + 7)) (rng (10 * i + 8)) (rng (10 * i + 9)),
    treeQuaternion := outwardQuaternionFromPosition treePosition,
    scatterScale := scale,
    treeScale := scale,
    seed := (i + 1) * 99991 }

/- sampling.ts lines 747-796: buildMorphPoints. -/
noncomputable def buildMorphPoints (count : ℕ) (opts : MorphOpts) (rng : ℕ → ℝ) :
    List MorphPoint :=
  (List.range count).map (morphPointAt opts rng)

/- sampling.ts lines 800-803: layers = max(1, round(sqrt(count))) and
   perLayer = max(1, ceil(count / layers)). -/
noncomputable def layersFor (count : ℕ) : ℕ :=
  max 1 (round (Real.sqrt count)).toNat

noncomputable def perLayerFor (count : ℕ) : ℕ :=
  max 1 (Nat.ceil ((count : ℝ) / (layersFor count : ℝ)))

/- sampling.ts line 811: ring height fraction (layer + 0.8) / (layers + 0.6)
   with layer = floor(i / perLayer). -/
noncomputable def polaroidHeightFraction (count i : ℕ) : ℝ :=
  ((i / perLayerFor count : ℕ) + 0.8) / ((layersFor count : ℕ) + 0.6)

/- One iteration of the buildPolaroidPoints loop (6 draws per element). -/
noncomputable def polaroidPointAt (cone : ConeParams) (count : ℕ) (rng : ℕ → ℝ)
    (i : ℕ) : MorphPoint :=
  let perLayer := perLayerFor count
  let layer := i / perLayer
  let idx := i % perLayer
  let tY := polaroidHeightFraction count i
  let y := cone.yBase + tY * cone.height
  let r := coneRadiusAtY y cone * 1.08
  let ang := ((idx : ℝ) / (perLayer : ℝ)) * (Real.pi * 2) + (layer : ℝ) * 0.45
  let treePosition : Vec3 := { x := r * Real.cos ang, y := y, z := r * Real.sin ang }
  { scatterPosition := randomPointInSphere 10 (rng (6 * i)) (rng (6 * i + 1)) (rng (6 * i + 2)),
    treePosition := treePosition,
    scatterQuaternion := randomQuaternion (rng (6 * i + 3)) (rng (6 * i + 4)) (rng (6 * i + 5)),
    treeQuaternion := outwardQuaternionFromPosition treePosition,
    scatterScale := { x := 0.9, y := 0.9, z := 0.9 },
    treeScale := { x := 0.9, y := 0.9, z := 0.9 },
    seed := (i + 1) * 31337 }

/- sampling.ts lines 800-831: buildPolaroidPoints. -/
noncomputable def buildPolaroidPoints (cone : ConeParams) (count : ℕ) (rng : ℕ → ℝ) :
    List MorphPoint :=
  (List.range count).map (polaroidPointAt cone count rng)

/- TreeSystem.tsx lines 389-400: the gold ornament configuration
   (surfaceBias 0.12, heightBias 1.2). -/
def ornamentOpts : MorphOpts :=
  { scatterRadius := 10, cone := treeSystemCone, baseScaleMin := 0.55,
    baseScaleMax := 1.1, surfaceBias := 0.12, heightBias := 1.2,
    extraTreeRadialOffset := 0.18 }

/- A concrete random stream used to evaluate the samplers. -/
noncomputable def halfStream : ℕ → ℝ := fun _ => 1 / 2

/-- C1: the height fraction raw ^ (1 / heightBias) of the frustum-biased
sampler, evaluated at the median uniform draw raw = 1/2, is above 1/2 for
heightBias = 1.2 = 6/5, and in fact for every heightBias above 1, so the
sampled height distribution is top-weighted rather than base-weighted; the
sampled y coordinate is yBase + heightFraction * height. -/
theorem heightFraction_median_above_half :
    1 / 2 < heightFraction (6 / 5) (1 / 2) ∧
    (∀ hb : ℝ, 1 < hb → 1 / 2 < heightFraction hb (1 / 2)) ∧
    (∀ (p : ConeParams) (raw r2 r3 sb hb : ℝ),
      (randomPointInConeBiased p raw r2 r3 sb hb).y =
        p.yBase + heightFraction hb raw * p.height) := by
  have key : ∀ hb : ℝ, 1 < hb → 1 / 2 < heightFraction hb (1 / 2) := by
    intro hb hhb
    have h0 : (0 : ℝ) < hb := by linarith
    have hlt : (1 : ℝ) / hb < 1 := by
      rw [div_lt_one h0]; exact hhb
    have hmain :=
      @Real.rpow_lt_rpow_of_exponent_gt (1 / 2) 1 (1 / hb) (by norm_num) (by norm_num) hlt
    rw [Real.rpow_one] at hmain
    exact hmain
  exact ⟨key (6 / 5) (by norm_num), key, fun p raw r2 r3 sb hb => rfl⟩

theorem heightFraction_median_above_half_check :
    1 / 2 < heightFraction 2 (1 / 2) :=
  heightFraction_median_above_half.2.1 2 (by norm_num)

/-- C7: for every count, configuration and random stream, buildMorphPoints
returns exactly count points, and every generated point has treeScale equal
to scatterScale (the uniform scale is drawn once and shared by both
configurations). -/
theorem buildMorphPoints_spec :
    ∀ (count : ℕ) (opts : MorphOpts) (rng : ℕ → ℝ),
      (buildMorphPoints count opts rng).length = count ∧
      ∀ pt ∈ buildMorphPoints count opts rng, pt.treeScale = pt.scatterScale := by
  intro count opts rng
  constructor
  · simp [buildMorphPoints]
  · intro pt hpt
    simp only [buildMorphPoints, List.mem_map] at hpt
    obtain ⟨i, _, rfl⟩ := hpt
    rfl

theorem buildMorphPoints_spec_check :
    (buildMorphPoints 2 ornamentOpts halfStream).length = 2 ∧
    (morphPointAt ornamentOpts halfStream 0).treeScale =
      (morphPointAt ornamentOpts halfStream 0).scatterScale :=
  ⟨(buildMorphPoints_spec 2 ornamentOpts halfStream).1,
   (buildMorphPoints_spec 2 ornamentOpts halfStream).2 _
     (List.mem_map_of_mem (morphPointAt ornamentOpts halfStream) (by simp))⟩

/-- C8: with 25 panels the grid has 5 layers of 5 panels each
(round(sqrt 25) = 5, ceil(25/5) = 5), buildPolaroidPoints returns 25 points,
every panel index below 25 lands in a layer below 5, and panels i and i + 5
(same ring position, adjacent layer) differ in height fraction by exactly
1 / (5 + 0.6) = 1 / 5.6. -/
theorem buildPolaroidPoints_grid_spec :
    layersFor 25 = 5 ∧ perLayerFor 25 = 5 ∧
    (∀ (cone : ConeParams) (rng : ℕ → ℝ),
      (buildPolaroidPoints cone 25 rng).length = 25) ∧
    (∀ i : ℕ, i < 25 → i / perLayerFor 25 < 5) ∧
    (∀ i : ℕ, i < 20 →
      polaroidHeightFraction 25 (i + 5) - polaroidHeightFraction 25 i = 1 / 5.6) := by
  have hsqrt : Real.sqrt ((25 : ℕ) : ℝ) = ((5 : ℕ) : ℝ) := by
    push_cast
    rw [show (25 : ℝ) = 5 ^ 2 by norm_num, Real.sqrt_sq (by norm_num : (0 : ℝ) ≤ 5)]
  have hlayers : layersFor 25 = 5 := by
    rw [layersFor, hsqrt, round_natCast]
    rfl
  have hdivq : ((25 : ℕ) : ℝ) / ((layersFor 25 : ℕ) : ℝ) = ((5 : ℕ) : ℝ) := by
    rw [hlayers]; push_cast; norm_num
  have hper : perLayerFor 25 = 5 := by
    rw [perLayerFor, hdivq, Nat.ceil_natCast]
    decide
  refine ⟨hlayers, hper, fun cone rng => by simp [buildPolaroidPoints], ?_, ?_⟩
  · intro i hi
    rw [hper]
    omega
  · intro i hi
    unfold polaroidHeightFraction
    rw [hper, hlayers, Nat.add_div_right i (by norm_num)]
    push_cast
    rw [div_sub_div_same]
    norm_num

theorem buildPolaroidPoints_grid_spec_check :
    (7 : ℕ) / perLayerFor 25 < 5 ∧
    polaroidHeightFraction 25 12 - polaroidHeightFraction 25 7 = 1 / 5.6 :=
  ⟨buildPolaroidPoints_grid_spec.2.2.2.1 7 (by norm_num),
   buildPolaroidPoints_grid_spec.2.2.2.2 7 (by norm_num)⟩

/-- C9: for a position on the vertical axis (x = 0 and z = 0) the outward
computation falls back to the fixed default direction (1,0,0), whose
normalization is exactly (1,0,0); for every position the guarded outward
vector has positive squared length, so the normalize call in
outwardQuaternionFromPosition never receives a zero-length vector; and the
panel-driver right-vector guard likewise always produces a vector of positive
squared length before normalization. -/
theorem outward_no_degenerate_spec :
    (∀ pos : Vec3, pos.x = 0 → pos.z = 0 →
      outwardGuarded pos = { x := 1, y := 0, z := 0 } ∧
      (outwardGuarded pos).normalize = { x := 1, y := 0, z := 0 }) ∧
    (∀ pos : Vec3, 0 < (outwardGuarded pos).lengthSq) ∧
    (∀ o : Vec3, 0 < (panelRightGuarded o).lengthSq) := by
  have hunit : (Vec3.mk 1 0 0).lengthSq = 1 := by norm_num [Vec3.lengthSq]
  have hnorm : (Vec3.mk 1 0 0).normalize = Vec3.mk 1 0 0 := by
    unfold Vec3.normalize Vec3.length
    rw [hunit, Real.sqrt_one]
    norm_num
  refine ⟨fun pos hx hz => ?_, fun pos => ?_, fun o => ?_⟩
  · have hg : outwardGuarded pos = Vec3.mk 1 0 0 := by
      unfold outwardGuarded
      rw [if_pos (by norm_num [Vec3.lengthSq, hx, hz])]
    exact ⟨hg, by rw [hg]; exact hnorm⟩
  · unfold outwardGuarded
    split_ifs with h
    · rw [hunit]; norm_num
    · push_neg at h
      have h8 : (0 : ℝ) < 1e-6 := by norm_num
      calc (0 : ℝ) < 1e-6 := h8
        _ ≤ _ := h
  · unfold panelRightGuarded
    split_ifs with h
    · rw [hunit]; norm_num
    · push_neg at h
      have h8 : (0 : ℝ) < 1e-8 := by norm_num
      calc (0 : ℝ) < 1e-8 := h8
        _ ≤ _ := h

theorem outward_no_degenerate_spec_check :
    outwardGuarded (Vec3.mk 0 3 0) = { x := 1, y := 0, z := 0 } ∧
    (outwardGuarded (Vec3.mk 0 3 0)).normalize = { x := 1, y := 0, z := 0 } :=
  outward_no_degenerate_spec.1 (Vec3.mk 0 3 0) rfl rfl
